import Mathlib

/-!
# Eddystone beacon application (`ruuvi_examples/eddystone/main.c`)

A shallow embedding of the event handlers, the event dispatcher and the main
scheduling loop of `main.c`, followed by theorems about them.

Conventions of the embedding

* The observable world is the level of every board LED together with the
  ordered list of calls the application has made into code outside `main.c`
  (SoftDevice replies, LED commands, module event handlers, scheduler, ...).
* A call into code outside `main.c` is recorded and nothing more: what the
  called function does in turn is not part of the caller.  When it calls back
  into `main.c` (the Eddystone module notifying `on_es_evt`, the scheduler
  running a handler), that callback is an input of its own.
* Return codes of SoftDevice calls are inputs chosen by the environment; the
  functions that make such a call take the returned code as an argument.
* `APP_ERROR_CHECK` on a code different from `NRF_SUCCESS` ends the run
  (`Outcome.fatal`): nothing after it is executed.
* Constants that `main.c` takes from headers which are not part of the
  sources (`boards.h`, `app_button.h`, `es_app_config.h`, SoftDevice headers)
  are fields of `Sdk`; every definition that uses one takes the `Sdk` value
  as an argument.
-/

namespace Eddystone

/-! ## Constants supplied by headers -/

/-- Values of the header constants used by `main.c`.  None of them is defined
in `main.c` itself, so they are parameters of the embedding. -/
structure Sdk where
  /-- Return code of a successful SoftDevice call. -/
  NRF_SUCCESS : Nat
  /-- Index of the first board LED. -/
  BSP_BOARD_LED_0 : Nat
  /-- Index of the second board LED. -/
  BSP_BOARD_LED_1 : Nat
  /-- Pin of board button 1, the pin `button_evt_handler` compares against. -/
  BUTTON_1 : Nat
  /-- Pin that `button_init` registers with the button module. -/
  BUTTON_REGISTRATION : Nat
  /-- Action code of a button press. -/
  APP_BUTTON_PUSH : Nat
  /-- SoftDevice API version the application is compiled for. -/
  NRF_SD_BLE_API_VERSION : Nat
  /-- Security status "pairing not supported". -/
  BLE_GAP_SEC_STATUS_PAIRING_NOT_SUPP : Nat
  /-- Default ATT MTU. -/
  GATT_MTU_SIZE_DEFAULT : Nat
  deriving DecidableEq, Repr

/-- Line 48: `#define NON_CONNECTABLE_ADV_LED_PIN BSP_BOARD_LED_1`. -/
def NON_CONNECTABLE_ADV_LED_PIN (sdk : Sdk) : Nat := sdk.BSP_BOARD_LED_1

/-- Line 49: `#define CONNECTED_LED_PIN BSP_BOARD_LED_0`. -/
def CONNECTED_LED_PIN (sdk : Sdk) : Nat := sdk.BSP_BOARD_LED_0

/-- Line 50: `#define CONNECTABLE_ADV_LED_PIN BSP_BOARD_LED_0`. -/
def CONNECTABLE_ADV_LED_PIN (sdk : Sdk) : Nat := sdk.BSP_BOARD_LED_0

/-! ## Events -/

/-- The value of `p_ble_evt->header.evt_id` as the `switch` of `on_ble_evt`
sees it: one of the five case labels, or any other identifier.  The labels are
enumeration constants of the SoftDevice headers; a `switch` requires them to
be pairwise distinct, so they are constructors here.  `other n` stands for an
identifier that equals none of the five labels. -/
inductive BleEvtId where
  | BLE_GAP_EVT_SEC_PARAMS_REQUEST
  | BLE_GATTS_EVT_SYS_ATTR_MISSING
  | BLE_GAP_EVT_CONNECTED
  | BLE_GAP_EVT_DISCONNECTED
  | BLE_GATTS_EVT_EXCHANGE_MTU_REQUEST
  | other (evt_id : Nat)
  deriving DecidableEq, Repr

/-- The fields of `ble_evt_t` that `main.c` reads.  `evt.common_evt.conn_handle`
and `evt.gatts_evt.conn_handle` are the same leading member of the event
union, hence one field. -/
structure ble_evt_t where
  evt_id : BleEvtId
  conn_handle : Nat
  deriving DecidableEq, Repr

/-- The type `nrf_ble_es_evt_t`: the two enumerators `on_es_evt` names, or any
other value. -/
inductive nrf_ble_es_evt_t where
  | NRF_BLE_ES_EVT_ADVERTISEMENT_SENT
  | NRF_BLE_ES_EVT_CONNECTABLE_ADV_STARTED
  | other (evt : Nat)
  deriving DecidableEq, Repr

/-! ## Calls leaving `main.c` and the observable world -/

/-- A call from `main.c` into code outside it, with its arguments.  A pointer
argument is `none` for `NULL`. -/
inductive Call where
  | bsp_board_led_on (led_idx : Nat)
  | bsp_board_led_off (led_idx : Nat)
  | sd_ble_gap_sec_params_reply (conn_handle sec_status : Nat)
      (p_sec_params p_sec_keyset : Option Nat)
  | sd_ble_gatts_sys_attr_set (conn_handle : Nat) (p_sys_attr_data : Option Nat)
      (len flags : Nat)
  | sd_ble_gatts_exchange_mtu_reply (conn_handle server_rx_mtu : Nat)
  | ble_conn_params_on_ble_evt (p_ble_evt : ble_evt_t)
  | nrf_ble_es_on_ble_evt (p_ble_evt : ble_evt_t)
  | ble_advertising_on_ble_evt (p_ble_evt : ble_evt_t)
  | nrf_ble_es_on_start_connectable_advertising
  | app_sched_execute
  | NRF_LOG_PROCESS
  | sd_app_evt_wait
  deriving DecidableEq, Repr

/-- Level of every board LED and the calls made so far, oldest first. -/
structure World where
  leds : Nat → Bool
  calls : List Call

/-- Result of running a piece of `main.c`: it returned, or an
`APP_ERROR_CHECK` failed with the given code and the run ended there. -/
inductive Outcome where
  | returned (w : World)
  | fatal (err_code : Nat) (w : World)

/-- The world in which a run ended. -/
def Outcome.world : Outcome → World
  | .returned w => w
  | .fatal _ w => w

/-- True when the run ended by returning. -/
def Outcome.isReturned : Outcome → Bool
  | .returned _ => true
  | .fatal _ _ => false

/-- Sequencing: continue with `k` after a run that returned. -/
def Outcome.andThen (o : Outcome) (k : World → Outcome) : Outcome :=
  match o with
  | .returned w => k w
  | .fatal e w => .fatal e w

/-- Record a call that has no modelled effect besides being made. -/
def call (c : Call) (w : World) : World :=
  World.mk w.leds (w.calls ++ [c])

/-- Modelled from the spec: `bsp_board_led_on` belongs to the board support
code, which is not part of the sources; the Indicator Sink "accepts on/off
requests", so the call sets the level of LED `led_idx` to on. -/
def bsp_board_led_on (led_idx : Nat) (w : World) : World :=
  World.mk (fun i => if i = led_idx then true else w.leds i)
    (w.calls ++ [Call.bsp_board_led_on led_idx])

/-- Modelled from the spec: `bsp_board_led_off` belongs to the board support
code, which is not part of the sources; the call sets the level of LED
`led_idx` to off. -/
def bsp_board_led_off (led_idx : Nat) (w : World) : World :=
  World.mk (fun i => if i = led_idx then false else w.leds i)
    (w.calls ++ [Call.bsp_board_led_off led_idx])

/-- Modelled from the spec: `APP_ERROR_CHECK` comes from the SDK error module,
which is not part of the sources; a failed stack call "is treated as fatal"
and "all fatal conditions halt the control loop". -/
def APP_ERROR_CHECK (sdk : Sdk) (err_code : Nat) (w : World) : Outcome :=
  if err_code = sdk.NRF_SUCCESS then .returned w else .fatal err_code w

/-! ## The handlers of `main.c` -/

/-- Lines 73-115, `on_ble_evt`.  `err_code` is the code the SoftDevice returns
to the reply call made for this event, if one is made. -/
def on_ble_evt (sdk : Sdk) (p_ble_evt : ble_evt_t) (err_code : Nat) (w : World) : Outcome :=
  match p_ble_evt.evt_id with
  | .BLE_GAP_EVT_SEC_PARAMS_REQUEST =>
      APP_ERROR_CHECK sdk err_code
        (call (.sd_ble_gap_sec_params_reply p_ble_evt.conn_handle
                sdk.BLE_GAP_SEC_STATUS_PAIRING_NOT_SUPP none none) w)
  | .BLE_GATTS_EVT_SYS_ATTR_MISSING =>
      APP_ERROR_CHECK sdk err_code
        (call (.sd_ble_gatts_sys_attr_set p_ble_evt.conn_handle none 0 0) w)
  | .BLE_GAP_EVT_CONNECTED =>
      .returned (bsp_board_led_off (CONNECTABLE_ADV_LED_PIN sdk)
                  (bsp_board_led_on (CONNECTED_LED_PIN sdk) w))
  | .BLE_GAP_EVT_DISCONNECTED =>
      .returned (bsp_board_led_off (CONNECTED_LED_PIN sdk) w)
  | .BLE_GATTS_EVT_EXCHANGE_MTU_REQUEST =>
      if sdk.NRF_SD_BLE_API_VERSION = 3 then
        APP_ERROR_CHECK sdk err_code
          (call (.sd_ble_gatts_exchange_mtu_reply p_ble_evt.conn_handle
                  sdk.GATT_MTU_SIZE_DEFAULT) w)
      else
        .returned w
  | .other _ => .returned w

/-- Lines 126-132, `ble_evt_dispatch`.  The three module handlers are outside
`main.c`; each is recorded as a call with the event it receives. -/
def ble_evt_dispatch (sdk : Sdk) (p_ble_evt : ble_evt_t) (err_code : Nat) (w : World) : Outcome :=
  (on_ble_evt sdk p_ble_evt err_code (call (.ble_conn_params_on_ble_evt p_ble_evt) w)).andThen
    fun w1 =>
      .returned (call (.ble_advertising_on_ble_evt p_ble_evt)
                  (call (.nrf_ble_es_on_ble_evt p_ble_evt) w1))

/-- Lines 202-208, `power_manage`.  `err_code` is the code `sd_app_evt_wait`
returns. -/
def power_manage (sdk : Sdk) (err_code : Nat) (w : World) : Outcome :=
  (APP_ERROR_CHECK sdk err_code
      (call .sd_app_evt_wait (bsp_board_led_off (NON_CONNECTABLE_ADV_LED_PIN sdk) w))).andThen
    fun w1 => .returned (bsp_board_led_on (NON_CONNECTABLE_ADV_LED_PIN sdk) w1)

/-- Lines 215-230, `on_es_evt`. -/
def on_es_evt (sdk : Sdk) (evt : nrf_ble_es_evt_t) (w : World) : World :=
  match evt with
  | .NRF_BLE_ES_EVT_ADVERTISEMENT_SENT => w
  | .NRF_BLE_ES_EVT_CONNECTABLE_ADV_STARTED =>
      bsp_board_led_on (CONNECTABLE_ADV_LED_PIN sdk) w
  | .other _ => w

/-- Lines 238-244, `button_evt_handler`. -/
def button_evt_handler (sdk : Sdk) (pin_no button_action : Nat) (w : World) : World :=
  if button_action = sdk.APP_BUTTON_PUSH ∧ pin_no = sdk.BUTTON_1 then
    call .nrf_ble_es_on_start_connectable_advertising w
  else
    w

/-- Lines 253-270, `button_init`: the pin placed in `buttons_cfgs.pin_no`, the
only button registered with the button module. -/
def button_init_pin_no (sdk : Sdk) : Nat := sdk.BUTTON_REGISTRATION

/-! ## The main loop -/

/-- What the environment answers during one pass of the `for (;;)` loop:
the value of `NRF_LOG_PROCESS()` and the code returned by `sd_app_evt_wait`
(read only when the wait is entered). -/
structure LoopEnv where
  log_process : Bool
  wait_err_code : Nat
  deriving DecidableEq, Repr

/-- Lines 319-323: one pass of the body of the `for (;;)` loop of `main`. -/
def main_loop_body (sdk : Sdk) (env : LoopEnv) (w : World) : Outcome :=
  let w1 := call .NRF_LOG_PROCESS (call .app_sched_execute w)
  if env.log_process = false then power_manage sdk env.wait_err_code w1 else .returned w1

/-- Lines 317-324: the `for (;;)` loop of `main`, run for one pass per element
of `envs`; a fatal error ends the run. -/
def main_loop (sdk : Sdk) : List LoopEnv → World → Outcome
  | [], w => .returned w
  | env :: envs, w => (main_loop_body sdk env w).andThen (main_loop sdk envs)

/-! ## Observations -/

/-- The connected indicator: the level of the LED named by `CONNECTED_LED_PIN`. -/
def connected_indicator (sdk : Sdk) (w : World) : Bool := w.leds (CONNECTED_LED_PIN sdk)

/-- The advertising indicator: the level of the LED named by
`CONNECTABLE_ADV_LED_PIN`. -/
def advertising_indicator (sdk : Sdk) (w : World) : Bool :=
  w.leds (CONNECTABLE_ADV_LED_PIN sdk)

/-- The awake indicator: the level of the LED named by
`NON_CONNECTABLE_ADV_LED_PIN`. -/
def awake_indicator (sdk : Sdk) (w : World) : Bool :=
  w.leds (NON_CONNECTABLE_ADV_LED_PIN sdk)

/-- The calls made between world `before` and a later world `after`. -/
def issued (before after : World) : List Call :=
  after.calls.drop before.calls.length

/-- Calls that answer the radio stack. -/
def isStackReply : Call → Bool
  | .sd_ble_gap_sec_params_reply _ _ _ _ => true
  | .sd_ble_gatts_sys_attr_set _ _ _ _ => true
  | .sd_ble_gatts_exchange_mtu_reply _ _ => true
  | _ => false

/-- Calls that command an indicator. -/
def isIndicatorCommand : Call → Bool
  | .bsp_board_led_on _ => true
  | .bsp_board_led_off _ => true
  | _ => false

/-- Calls that hand a stack event to one of the three modules outside
`main.c`. -/
def isModuleHandler : Call → Bool
  | .ble_conn_params_on_ble_evt _ => true
  | .nrf_ble_es_on_ble_evt _ => true
  | .ble_advertising_on_ble_evt _ => true
  | _ => false

/-- The calls `on_ble_evt` makes for an event, in order: its run from a world
with no recorded call. -/
def on_ble_evt_calls (sdk : Sdk) (p_ble_evt : ble_evt_t) (err_code : Nat) : List Call :=
  (on_ble_evt sdk p_ble_evt err_code (World.mk (fun _ => false) [])).world.calls

/-- Scan of a call list: `drained` tells whether `app_sched_execute` has been
called since the last `sd_app_evt_wait` (or since the start); the result is
true when every `sd_app_evt_wait` in the list is met with `drained` true. -/
def drainedBeforeEveryWait : Bool → List Call → Bool
  | _, [] => true
  | _, .app_sched_execute :: cs => drainedBeforeEveryWait true cs
  | drained, .sd_app_evt_wait :: cs => drained && drainedBeforeEveryWait false cs
  | drained, _ :: cs => drainedBeforeEveryWait drained cs

/-! ## The mode of the specification and replay of event sequences

`main.c` keeps no mode variable.  The mode below is the one of the
specification, advanced by its transition table next to the handlers. -/

/-- The operating modes named by the specification. -/
inductive BeaconMode where
  | Idle
  | NonConnectableAdvertising
  | ConnectableAdvertising
  | Connected
  deriving DecidableEq, Repr

/-- One input of the Mode Coordinator: a stack event (with the code the
SoftDevice returns to the reply made for it), a notification of the Eddystone
module, or a button event. -/
inductive Input where
  | stack (p_ble_evt : ble_evt_t) (err_code : Nat)
  | notification (evt : nrf_ble_es_evt_t)
  | button (pin_no button_action : Nat)
  deriving DecidableEq, Repr

/-- The transition table of the specification (section 4.2), written from its
words: `ConnectableModeEntered` leads to `ConnectableAdvertising` from any
mode, `ConnectionEstablished` leads from `ConnectableAdvertising` to
`Connected`, `ConnectionLost` leads from `Connected` to
`NonConnectableAdvertising`, and every other pair leaves the mode unchanged. -/
def spec_transition (m : BeaconMode) (i : Input) : BeaconMode :=
  match m, i with
  | _, .notification .NRF_BLE_ES_EVT_CONNECTABLE_ADV_STARTED => .ConnectableAdvertising
  | .ConnectableAdvertising, .stack ⟨.BLE_GAP_EVT_CONNECTED, _⟩ _ => .Connected
  | .Connected, .stack ⟨.BLE_GAP_EVT_DISCONNECTED, _⟩ _ => .NonConnectableAdvertising
  | m, _ => m

/-- Deliver one input to the handler of `main.c` that receives it. -/
def handle (sdk : Sdk) (i : Input) (w : World) : Outcome :=
  match i with
  | .stack p_ble_evt err_code => on_ble_evt sdk p_ble_evt err_code w
  | .notification evt => .returned (on_es_evt sdk evt w)
  | .button pin_no button_action => .returned (button_evt_handler sdk pin_no button_action w)

/-- Replay a sequence of inputs: each is handled in turn and the mode of the
specification is advanced with it; a fatal error ends the run. -/
def replay (sdk : Sdk) : List Input → BeaconMode × World → BeaconMode × World
  | [], s => s
  | i :: is, (m, w) =>
      match handle sdk i w with
      | .returned w1 => replay sdk is (spec_transition m i, w1)
      | .fatal _ w1 => (spec_transition m i, w1)

/-- The initial state: `NonConnectableAdvertising`, every LED off, no call
made. -/
def initial : BeaconMode × World :=
  (.NonConnectableAdvertising, World.mk (fun _ => false) [])

/-- True when no `ConnectionLost` stack event occurs in the sequence at a
point where the mode of the specification is `ConnectableAdvertising`. -/
def noLossWhileConnectable : BeaconMode → List Input → Bool
  | _, [] => true
  | m, i :: is =>
      (match m, i with
        | .ConnectableAdvertising, .stack ⟨.BLE_GAP_EVT_DISCONNECTED, _⟩ _ => false
        | _, _ => true)
      && noLossWhileConnectable (spec_transition m i) is

/-! ## A concrete set of header constants -/

/-- Header constants of a two-LED, one-button board with SoftDevice API 3,
used to instantiate the theorems below. -/
def board : Sdk :=
  Sdk.mk 0 0 1 13 13 1 3 133 23

/-- A world with every LED off and no call made. -/
def quiet : World := World.mk (fun _ => false) []

/-- A world in which both LEDs are on, for instance connected and awake. -/
def lit : World := World.mk (fun _ => true) []

/-- A world in which only LED 0 is on, as when connectable advertising has
started. -/
def advertising : World := World.mk (fun i => decide (i = 0)) []

/-! ## Basic facts about the recorded calls -/

/-- The calls recorded by a run of `on_ble_evt` are those recorded before it
followed by the calls it makes for the event. -/
theorem on_ble_evt_world_calls (sdk : Sdk) (e : ble_evt_t) (err_code : Nat) (w : World) :
    (on_ble_evt sdk e err_code w).world.calls = w.calls ++ on_ble_evt_calls sdk e err_code := by
  obtain ⟨id, h⟩ := e
  by_cases h1 : err_code = sdk.NRF_SUCCESS <;>
    by_cases h2 : sdk.NRF_SD_BLE_API_VERSION = 3 <;>
    cases id <;>
    simp [on_ble_evt, on_ble_evt_calls, APP_ERROR_CHECK, call, bsp_board_led_on,
      bsp_board_led_off, Outcome.world, h1, h2]

/-- A run of `on_ble_evt` whose reply is answered with `NRF_SUCCESS` returns. -/
theorem on_ble_evt_returned_of_success (sdk : Sdk) (e : ble_evt_t) (w : World) :
    (on_ble_evt sdk e sdk.NRF_SUCCESS w).isReturned = true := by
  obtain ⟨id, h⟩ := e
  by_cases h2 : sdk.NRF_SD_BLE_API_VERSION = 3 <;>
    cases id <;> simp [on_ble_evt, APP_ERROR_CHECK, Outcome.isReturned, h2]

/-- The handler `on_ble_evt` calls none of the three module handlers. -/
theorem on_ble_evt_calls_no_module_handler (sdk : Sdk) (e : ble_evt_t) (err_code : Nat) :
    (on_ble_evt_calls sdk e err_code).filter isModuleHandler = [] := by
  obtain ⟨id, h⟩ := e
  by_cases h1 : err_code = sdk.NRF_SUCCESS <;>
    by_cases h2 : sdk.NRF_SD_BLE_API_VERSION = 3 <;>
    cases id <;>
    simp [on_ble_evt_calls, on_ble_evt, APP_ERROR_CHECK, call, bsp_board_led_on,
      bsp_board_led_off, Outcome.world, isModuleHandler, h1, h2]

/-! ## The stack-event handler -/

/-- C1, evaluation of the code: after `on_ble_evt` handles
`BLE_GAP_EVT_CONNECTED`, from any world, the LED read as connected indicator
(`CONNECTED_LED_PIN`) is off, the LED read as advertising indicator is off, and
the calls made are "LED on" followed by "LED off" for the same LED. -/
theorem on_ble_evt_connected_leaves_connected_indicator_off (sdk : Sdk)
    (conn_handle err_code : Nat) (w : World) :
    connected_indicator sdk
        (on_ble_evt sdk ⟨.BLE_GAP_EVT_CONNECTED, conn_handle⟩ err_code w).world = false
    ∧ advertising_indicator sdk
        (on_ble_evt sdk ⟨.BLE_GAP_EVT_CONNECTED, conn_handle⟩ err_code w).world = false
    ∧ issued w (on_ble_evt sdk ⟨.BLE_GAP_EVT_CONNECTED, conn_handle⟩ err_code w).world
        = [Call.bsp_board_led_on sdk.BSP_BOARD_LED_0,
           Call.bsp_board_led_off sdk.BSP_BOARD_LED_0] := by
  simp [on_ble_evt, connected_indicator, advertising_indicator, bsp_board_led_on,
    bsp_board_led_off, Outcome.world, CONNECTED_LED_PIN, CONNECTABLE_ADV_LED_PIN, issued]

/-- C3, counterexample: in the initial state (`NonConnectableAdvertising`,
every LED off) the handling of `BLE_GAP_EVT_CONNECTED` does not leave the
indicators untouched: it is false that the mode stays, no indicator command is
issued and every LED keeps its level, because two indicator commands are
issued. -/
theorem connected_in_initial_state_switches_indicator :
    ¬ (spec_transition initial.1 (.stack ⟨.BLE_GAP_EVT_CONNECTED, 0⟩ 0) = initial.1
        ∧ (issued initial.2
            (on_ble_evt board ⟨.BLE_GAP_EVT_CONNECTED, 0⟩ 0 initial.2).world).filter
              isIndicatorCommand = []
        ∧ ∀ i, (on_ble_evt board ⟨.BLE_GAP_EVT_CONNECTED, 0⟩ 0 initial.2).world.leds i
              = initial.2.leds i) := by
  intro h
  have h2 := h.2.1
  revert h2
  decide

/-- C3, amended: when `on_ble_evt` handles `BLE_GAP_EVT_CONNECTED` the mode of
the specification stays `NonConnectableAdvertising` if it was so, the handler
returns, the calls it makes are exactly "connected indicator on" followed by
"advertising indicator off", every LED other than `BSP_BOARD_LED_0` keeps its
level, and if `BSP_BOARD_LED_0` was off before (as in the initial state) every
LED has the same level after the call as before it. -/
theorem on_ble_evt_connected_effect (sdk : Sdk) (conn_handle err_code : Nat) (w : World) :
    spec_transition .NonConnectableAdvertising
        (.stack ⟨.BLE_GAP_EVT_CONNECTED, conn_handle⟩ err_code) = .NonConnectableAdvertising
    ∧ (on_ble_evt sdk ⟨.BLE_GAP_EVT_CONNECTED, conn_handle⟩ err_code w).isReturned = true
    ∧ issued w (on_ble_evt sdk ⟨.BLE_GAP_EVT_CONNECTED, conn_handle⟩ err_code w).world
        = [Call.bsp_board_led_on (CONNECTED_LED_PIN sdk),
           Call.bsp_board_led_off (CONNECTABLE_ADV_LED_PIN sdk)]
    ∧ (∀ i, i ≠ sdk.BSP_BOARD_LED_0 →
        (on_ble_evt sdk ⟨.BLE_GAP_EVT_CONNECTED, conn_handle⟩ err_code w).world.leds i
          = w.leds i)
    ∧ (w.leds sdk.BSP_BOARD_LED_0 = false →
        ∀ i, (on_ble_evt sdk ⟨.BLE_GAP_EVT_CONNECTED, conn_handle⟩ err_code w).world.leds i
          = w.leds i) := by
  refine ⟨rfl, rfl, ?_, ?_, ?_⟩
  · simp [on_ble_evt, bsp_board_led_on, bsp_board_led_off, Outcome.world, issued]
  · intro i hi
    simp [on_ble_evt, bsp_board_led_on, bsp_board_led_off, Outcome.world,
      CONNECTED_LED_PIN, CONNECTABLE_ADV_LED_PIN, hi]
  · intro h0 i
    by_cases hi : i = sdk.BSP_BOARD_LED_0
    · simp [on_ble_evt, bsp_board_led_on, bsp_board_led_off, Outcome.world,
        CONNECTED_LED_PIN, CONNECTABLE_ADV_LED_PIN, hi, h0]
    · simp [on_ble_evt, bsp_board_led_on, bsp_board_led_off, Outcome.world,
        CONNECTED_LED_PIN, CONNECTABLE_ADV_LED_PIN, hi]

/-- C3, amended, instance: the initial world with the constants of `board`:
LED 1 keeps its level, and LED 0 being off before, every LED does. -/
theorem on_ble_evt_connected_effect_witness :
    (on_ble_evt board ⟨.BLE_GAP_EVT_CONNECTED, 0⟩ 0 quiet).world.leds 1 = quiet.leds 1
    ∧ quiet.leds board.BSP_BOARD_LED_0 = false
    ∧ ∀ i, (on_ble_evt board ⟨.BLE_GAP_EVT_CONNECTED, 0⟩ 0 quiet).world.leds i
          = quiet.leds i :=
  ⟨(on_ble_evt_connected_effect board 0 0 quiet).2.2.2.1 1 (by decide), rfl,
   (on_ble_evt_connected_effect board 0 0 quiet).2.2.2.2 rfl⟩

/-- C4: when `on_ble_evt` handles `BLE_GAP_EVT_SEC_PARAMS_REQUEST`, from any
world, with any mode and whatever code the SoftDevice returns, the calls it
makes are exactly one `sd_ble_gap_sec_params_reply` for the connection handle
of the event with status `BLE_GAP_SEC_STATUS_PAIRING_NOT_SUPP` and both key
pointers `NULL`; hence one stack reply, no indicator command, every LED level
as before, and the mode of the specification unchanged. -/
theorem on_ble_evt_sec_params_request (sdk : Sdk) (conn_handle err_code : Nat) (w : World)
    (m : BeaconMode) :
    issued w (on_ble_evt sdk ⟨.BLE_GAP_EVT_SEC_PARAMS_REQUEST, conn_handle⟩ err_code w).world
        = [Call.sd_ble_gap_sec_params_reply conn_handle
            sdk.BLE_GAP_SEC_STATUS_PAIRING_NOT_SUPP none none]
    ∧ ((issued w
          (on_ble_evt sdk ⟨.BLE_GAP_EVT_SEC_PARAMS_REQUEST, conn_handle⟩ err_code w).world).filter
            isStackReply).length = 1
    ∧ (issued w
          (on_ble_evt sdk ⟨.BLE_GAP_EVT_SEC_PARAMS_REQUEST, conn_handle⟩ err_code w).world).filter
            isIndicatorCommand = []
    ∧ (on_ble_evt sdk ⟨.BLE_GAP_EVT_SEC_PARAMS_REQUEST, conn_handle⟩ err_code w).world.leds
        = w.leds
    ∧ spec_transition m (.stack ⟨.BLE_GAP_EVT_SEC_PARAMS_REQUEST, conn_handle⟩ err_code) = m := by
  have hm : spec_transition m
      (.stack ⟨.BLE_GAP_EVT_SEC_PARAMS_REQUEST, conn_handle⟩ err_code) = m := by
    cases m <;> rfl
  refine ⟨?_, ?_, ?_, ?_, hm⟩ <;>
    by_cases h1 : err_code = sdk.NRF_SUCCESS <;>
    simp [on_ble_evt, APP_ERROR_CHECK, call, Outcome.world, issued, isStackReply,
      isIndicatorCommand, h1]

/-- C5: for a stack event whose identifier is none of `BLE_GAP_EVT_CONNECTED`,
`BLE_GAP_EVT_DISCONNECTED`, `BLE_GAP_EVT_SEC_PARAMS_REQUEST`,
`BLE_GATTS_EVT_SYS_ATTR_MISSING` and `BLE_GATTS_EVT_EXCHANGE_MTU_REQUEST`,
`on_ble_evt` returns without error in the very world it started from: no call
is made (no stack reply, no indicator command) and no LED level changes. -/
theorem on_ble_evt_unrecognized (sdk : Sdk) (e : ble_evt_t) (err_code : Nat) (w : World)
    (h1 : e.evt_id ≠ .BLE_GAP_EVT_CONNECTED)
    (h2 : e.evt_id ≠ .BLE_GAP_EVT_DISCONNECTED)
    (h3 : e.evt_id ≠ .BLE_GAP_EVT_SEC_PARAMS_REQUEST)
    (h4 : e.evt_id ≠ .BLE_GATTS_EVT_SYS_ATTR_MISSING)
    (h5 : e.evt_id ≠ .BLE_GATTS_EVT_EXCHANGE_MTU_REQUEST) :
    on_ble_evt sdk e err_code w = .returned w
    ∧ issued w (on_ble_evt sdk e err_code w).world = []
    ∧ (on_ble_evt sdk e err_code w).world.leds = w.leds := by
  obtain ⟨id, h⟩ := e
  cases id <;> simp_all [on_ble_evt, Outcome.world, issued]

/-- C5, instance: an event with an identifier outside the five case labels
and a failing return code, in a world with LED 0 on. -/
theorem on_ble_evt_unrecognized_witness :
    on_ble_evt board ⟨.other 18, 7⟩ 1 advertising = .returned advertising
    ∧ issued advertising (on_ble_evt board ⟨.other 18, 7⟩ 1 advertising).world = []
    ∧ (on_ble_evt board ⟨.other 18, 7⟩ 1 advertising).world.leds = advertising.leds :=
  on_ble_evt_unrecognized board ⟨.other 18, 7⟩ 1 advertising
    (by decide) (by decide) (by decide) (by decide) (by decide)

/-- C10: when `on_ble_evt` handles `BLE_GAP_EVT_DISCONNECTED` while the mode is
`Connected`, the mode of the specification becomes `NonConnectableAdvertising`,
the handler returns, the connected indicator is off afterwards whatever it was
before, the only call made is "LED off" for `CONNECTED_LED_PIN` (so no stack
reply), and the awake indicator (`NON_CONNECTABLE_ADV_LED_PIN`) keeps its
level, the two board LEDs being different LEDs. -/
theorem on_ble_evt_disconnected (sdk : Sdk) (conn_handle err_code : Nat) (w : World)
    (hled : sdk.BSP_BOARD_LED_1 ≠ sdk.BSP_BOARD_LED_0) :
    spec_transition .Connected (.stack ⟨.BLE_GAP_EVT_DISCONNECTED, conn_handle⟩ err_code)
        = .NonConnectableAdvertising
    ∧ (on_ble_evt sdk ⟨.BLE_GAP_EVT_DISCONNECTED, conn_handle⟩ err_code w).isReturned = true
    ∧ connected_indicator sdk
        (on_ble_evt sdk ⟨.BLE_GAP_EVT_DISCONNECTED, conn_handle⟩ err_code w).world = false
    ∧ issued w (on_ble_evt sdk ⟨.BLE_GAP_EVT_DISCONNECTED, conn_handle⟩ err_code w).world
        = [Call.bsp_board_led_off (CONNECTED_LED_PIN sdk)]
    ∧ (issued w
          (on_ble_evt sdk ⟨.BLE_GAP_EVT_DISCONNECTED, conn_handle⟩ err_code w).world).filter
            isStackReply = []
    ∧ awake_indicator sdk
        (on_ble_evt sdk ⟨.BLE_GAP_EVT_DISCONNECTED, conn_handle⟩ err_code w).world
        = awake_indicator sdk w := by
  refine ⟨rfl, rfl, ?_, ?_, ?_, ?_⟩
  · simp [on_ble_evt, connected_indicator, bsp_board_led_off, Outcome.world]
  · simp [on_ble_evt, bsp_board_led_off, Outcome.world, issued]
  · simp [on_ble_evt, bsp_board_led_off, Outcome.world, issued, isStackReply]
  · simp [on_ble_evt, awake_indicator, bsp_board_led_off, Outcome.world,
      CONNECTED_LED_PIN, NON_CONNECTABLE_ADV_LED_PIN, hled]

/-- C10, instance: both LEDs on before the event, LED 0 off and LED 1 still on
after it. -/
theorem on_ble_evt_disconnected_witness :
    connected_indicator board
        (on_ble_evt board ⟨.BLE_GAP_EVT_DISCONNECTED, 0⟩ 0 lit).world = false
    ∧ awake_indicator board
        (on_ble_evt board ⟨.BLE_GAP_EVT_DISCONNECTED, 0⟩ 0 lit).world = true :=
  ⟨(on_ble_evt_disconnected board 0 0 lit (by decide)).2.2.1,
   (on_ble_evt_disconnected board 0 0 lit (by decide)).2.2.2.2.2⟩

/-! ## The Eddystone notification handler -/

/-- C9: for every world and every notification, `on_es_evt` issues an
indicator command if and only if the notification is
`NRF_BLE_ES_EVT_CONNECTABLE_ADV_STARTED`; in that case the only call made is
"LED on" for `CONNECTABLE_ADV_LED_PIN` and the advertising indicator is on
afterwards; for `NRF_BLE_ES_EVT_ADVERTISEMENT_SENT` and every other value the
world is returned as it was. -/
theorem on_es_evt_indicator (sdk : Sdk) (evt : nrf_ble_es_evt_t) (w : World) :
    ((issued w (on_es_evt sdk evt w)).any isIndicatorCommand = true
        ↔ evt = .NRF_BLE_ES_EVT_CONNECTABLE_ADV_STARTED)
    ∧ (evt = .NRF_BLE_ES_EVT_CONNECTABLE_ADV_STARTED →
        issued w (on_es_evt sdk evt w) = [Call.bsp_board_led_on (CONNECTABLE_ADV_LED_PIN sdk)]
        ∧ advertising_indicator sdk (on_es_evt sdk evt w) = true)
    ∧ (evt ≠ .NRF_BLE_ES_EVT_CONNECTABLE_ADV_STARTED → on_es_evt sdk evt w = w) := by
  cases evt <;>
    simp [on_es_evt, issued, isIndicatorCommand, bsp_board_led_on, advertising_indicator]

/-- C9, instance: the notification `NRF_BLE_ES_EVT_CONNECTABLE_ADV_STARTED` in
a world with every LED off, and `NRF_BLE_ES_EVT_ADVERTISEMENT_SENT` in the same
world. -/
theorem on_es_evt_indicator_witness :
    (issued quiet (on_es_evt board .NRF_BLE_ES_EVT_CONNECTABLE_ADV_STARTED quiet)
        = [Call.bsp_board_led_on (CONNECTABLE_ADV_LED_PIN board)]
      ∧ advertising_indicator board
          (on_es_evt board .NRF_BLE_ES_EVT_CONNECTABLE_ADV_STARTED quiet) = true)
    ∧ on_es_evt board .NRF_BLE_ES_EVT_ADVERTISEMENT_SENT quiet = quiet :=
  ⟨(on_es_evt_indicator board .NRF_BLE_ES_EVT_CONNECTABLE_ADV_STARTED quiet).2.1 rfl,
   (on_es_evt_indicator board .NRF_BLE_ES_EVT_ADVERTISEMENT_SENT quiet).2.2 (by decide)⟩


/-! ## The button handler -/

/-- C7: for every button event, `button_evt_handler` makes the single call
`nrf_ble_es_on_start_connectable_advertising` when the event is a press of the
registration control, the pin `button_init` registers (`BUTTON_REGISTRATION`),
and otherwise returns the world as it was: no call and no LED change for a
release or for an event of any other control.  The handler tests the pin
against `BUTTON_1`; the hypothesis is that this header constant is the
registered pin. -/
theorem button_evt_handler_command (sdk : Sdk) (pin_no button_action : Nat) (w : World)
    (hreg : sdk.BUTTON_1 = button_init_pin_no sdk) :
    (button_action = sdk.APP_BUTTON_PUSH ∧ pin_no = button_init_pin_no sdk →
        issued w (button_evt_handler sdk pin_no button_action w)
          = [Call.nrf_ble_es_on_start_connectable_advertising])
    ∧ (¬ (button_action = sdk.APP_BUTTON_PUSH ∧ pin_no = button_init_pin_no sdk) →
        button_evt_handler sdk pin_no button_action w = w
        ∧ issued w (button_evt_handler sdk pin_no button_action w) = []) := by
  constructor
  · intro h
    have h1 : button_action = sdk.APP_BUTTON_PUSH ∧ pin_no = sdk.BUTTON_1 := ⟨h.1, by rw [hreg]; exact h.2⟩
    simp [button_evt_handler, if_pos h1, call, issued]
  · intro h
    have h1 : ¬ (button_action = sdk.APP_BUTTON_PUSH ∧ pin_no = sdk.BUTTON_1) := by
      rw [hreg]; exact h
    simp [button_evt_handler, if_neg h1, issued]

/-- C7, instance: with the constants of `board` (button pin 13, press code 1),
a press of pin 13 issues the command, a release of pin 13 and a press of pin 14
change nothing. -/
theorem button_evt_handler_command_witness :
    issued quiet (button_evt_handler board 13 1 quiet)
        = [Call.nrf_ble_es_on_start_connectable_advertising]
    ∧ button_evt_handler board 13 0 quiet = quiet
    ∧ button_evt_handler board 14 1 quiet = quiet :=
  ⟨(button_evt_handler_command board 13 1 quiet rfl).1 ⟨rfl, rfl⟩,
   ((button_evt_handler_command board 13 0 quiet rfl).2 (by decide)).1,
   ((button_evt_handler_command board 14 1 quiet rfl).2 (by decide)).1⟩

/-! ## The event dispatcher -/

/-- C6: for every stack event, `ble_evt_dispatch` first calls
`ble_conn_params_on_ble_evt` with the event, then runs `on_ble_evt` on it; when
`on_ble_evt` returns (no failed error check), it goes on to call
`nrf_ble_es_on_ble_evt` and then `ble_advertising_on_ble_evt` with the same
event and returns.  The calls `on_ble_evt` makes contain no module handler, so
each of the three module handlers is called exactly once, and the order is the
same for every event identifier. -/
theorem ble_evt_dispatch_order (sdk : Sdk) (e : ble_evt_t) (err_code : Nat) (w : World)
    (hret : (on_ble_evt sdk e err_code
              (call (.ble_conn_params_on_ble_evt e) w)).isReturned = true) :
    (∃ w1, on_ble_evt sdk e err_code (call (.ble_conn_params_on_ble_evt e) w) = .returned w1
        ∧ ble_evt_dispatch sdk e err_code w
            = .returned (call (.ble_advertising_on_ble_evt e)
                          (call (.nrf_ble_es_on_ble_evt e) w1)))
    ∧ issued w (ble_evt_dispatch sdk e err_code w).world
        = [Call.ble_conn_params_on_ble_evt e] ++ on_ble_evt_calls sdk e err_code
            ++ [Call.nrf_ble_es_on_ble_evt e, Call.ble_advertising_on_ble_evt e]
    ∧ (on_ble_evt_calls sdk e err_code).filter isModuleHandler = []
    ∧ (issued w (ble_evt_dispatch sdk e err_code w).world).filter isModuleHandler
        = [Call.ble_conn_params_on_ble_evt e, Call.nrf_ble_es_on_ble_evt e,
           Call.ble_advertising_on_ble_evt e] := by
  have hnone := on_ble_evt_calls_no_module_handler sdk e err_code
  have hcalls := on_ble_evt_world_calls sdk e err_code
    (call (.ble_conn_params_on_ble_evt e) w)
  cases hrun : on_ble_evt sdk e err_code (call (.ble_conn_params_on_ble_evt e) w) with
  | fatal c w1 => rw [hrun] at hret; simp [Outcome.isReturned] at hret
  | returned w1 =>
    rw [hrun] at hcalls
    simp only [Outcome.world] at hcalls
    have hissued : issued w (ble_evt_dispatch sdk e err_code w).world
        = [Call.ble_conn_params_on_ble_evt e] ++ on_ble_evt_calls sdk e err_code
            ++ [Call.nrf_ble_es_on_ble_evt e, Call.ble_advertising_on_ble_evt e] := by
      unfold ble_evt_dispatch
      rw [hrun]
      simp [Outcome.andThen, Outcome.world, call, issued, hcalls]
    refine ⟨⟨w1, rfl, ?_⟩, hissued, hnone, ?_⟩
    · unfold ble_evt_dispatch
      rw [hrun]
      rfl
    · rw [hissued]
      simp [List.filter_append, hnone, isModuleHandler]

/-- C6, instance: a security-parameters request on connection 5 answered with
success, dispatched in a world with no call made. -/
theorem ble_evt_dispatch_order_witness :
    issued quiet
        (ble_evt_dispatch board ⟨.BLE_GAP_EVT_SEC_PARAMS_REQUEST, 5⟩ 0 quiet).world
      = [Call.ble_conn_params_on_ble_evt ⟨.BLE_GAP_EVT_SEC_PARAMS_REQUEST, 5⟩]
          ++ on_ble_evt_calls board ⟨.BLE_GAP_EVT_SEC_PARAMS_REQUEST, 5⟩ 0
          ++ [Call.nrf_ble_es_on_ble_evt ⟨.BLE_GAP_EVT_SEC_PARAMS_REQUEST, 5⟩,
              Call.ble_advertising_on_ble_evt ⟨.BLE_GAP_EVT_SEC_PARAMS_REQUEST, 5⟩] :=
  (ble_evt_dispatch_order board ⟨.BLE_GAP_EVT_SEC_PARAMS_REQUEST, 5⟩ 0 quiet rfl).2.1

/-! ## The scheduling loop of `main` -/

/-- The calls made by one pass of the loop body, for each answer of the
environment. -/
theorem main_loop_body_calls (sdk : Sdk) (env : LoopEnv) (w : World) :
    (main_loop_body sdk env w).world.calls
      = w.calls ++ ([Call.app_sched_execute, Call.NRF_LOG_PROCESS]
          ++ (if env.log_process = false then
                [Call.bsp_board_led_off (NON_CONNECTABLE_ADV_LED_PIN sdk), Call.sd_app_evt_wait]
                  ++ (if env.wait_err_code = sdk.NRF_SUCCESS then
                        [Call.bsp_board_led_on (NON_CONNECTABLE_ADV_LED_PIN sdk)]
                      else [])
              else [])) := by
  obtain ⟨lp, ec⟩ := env
  by_cases h1 : ec = sdk.NRF_SUCCESS <;>
    cases lp <;>
    simp [main_loop_body, power_manage, APP_ERROR_CHECK, call, bsp_board_led_on,
      bsp_board_led_off, Outcome.andThen, Outcome.world, h1]

/-- A pass of the loop followed by a call list that passes the scan passes
the scan, whatever the flag at its start. -/
theorem drained_pass (sdk : Sdk) (env : LoopEnv) (d : Bool) (cs : List Call)
    (h : ∀ b, drainedBeforeEveryWait b cs = true) :
    drainedBeforeEveryWait d
      (([Call.app_sched_execute, Call.NRF_LOG_PROCESS]
          ++ (if env.log_process = false then
                [Call.bsp_board_led_off (NON_CONNECTABLE_ADV_LED_PIN sdk), Call.sd_app_evt_wait]
                  ++ (if env.wait_err_code = sdk.NRF_SUCCESS then
                        [Call.bsp_board_led_on (NON_CONNECTABLE_ADV_LED_PIN sdk)]
                      else [])
              else [])) ++ cs) = true := by
  obtain ⟨lp, ec⟩ := env
  by_cases h1 : ec = sdk.NRF_SUCCESS <;>
    cases lp <;>
    simp [drainedBeforeEveryWait, h1, h]

/-- The calls made by any number of passes extend the earlier ones and pass
the scan from either flag. -/
theorem main_loop_calls (sdk : Sdk) (envs : List LoopEnv) :
    ∀ w, ∃ cs, (main_loop sdk envs w).world.calls = w.calls ++ cs
      ∧ ∀ b, drainedBeforeEveryWait b cs = true := by
  induction envs with
  | nil =>
    intro w
    exact ⟨[], by simp [main_loop, Outcome.world], fun b => by simp [drainedBeforeEveryWait]⟩
  | cons env envs ih =>
    intro w
    obtain ⟨t, hbody, hpass⟩ : ∃ t, (main_loop_body sdk env w).world.calls = w.calls ++ t
        ∧ ∀ d cs, (∀ b, drainedBeforeEveryWait b cs = true) →
            drainedBeforeEveryWait d (t ++ cs) = true :=
      ⟨_, main_loop_body_calls sdk env w, fun d cs h => drained_pass sdk env d cs h⟩
    cases hrun : main_loop_body sdk env w with
    | fatal c w1 =>
      rw [hrun] at hbody
      simp only [Outcome.world] at hbody
      refine ⟨t, ?_, ?_⟩
      · simp only [main_loop, hrun, Outcome.andThen, Outcome.world]
        exact hbody
      · intro b
        have h0 := hpass b [] (fun b => by simp [drainedBeforeEveryWait])
        simpa using h0
    | returned w1 =>
      rw [hrun] at hbody
      simp only [Outcome.world] at hbody
      obtain ⟨cs, hcs, hd⟩ := ih w1
      refine ⟨t ++ cs, ?_, ?_⟩
      · simp only [main_loop, hrun, Outcome.andThen]
        rw [hcs, hbody, List.append_assoc]
      · intro b
        exact hpass b cs hd

/-- C8: in every pass of the `for (;;)` loop of `main` the first call is
`app_sched_execute` and the second `NRF_LOG_PROCESS`; `sd_app_evt_wait` is
called if and only if `NRF_LOG_PROCESS()` gave `false`; when it is called, the
call just before it is "LED off" for the awake indicator and, the wait
returning `NRF_SUCCESS`, the call just after it is "LED on" for the awake
indicator, which ends the pass; when `NRF_LOG_PROCESS()` gave `true` the pass
makes no further call, hence no wait and no indicator command.  Over any number of
passes, from any world, every `sd_app_evt_wait` is preceded by an
`app_sched_execute` made after the previous `sd_app_evt_wait`. -/
theorem main_loop_drains_before_wait (sdk : Sdk) (env : LoopEnv) (envs : List LoopEnv)
    (w : World) :
    (env.log_process = false → env.wait_err_code = sdk.NRF_SUCCESS →
        issued w (main_loop_body sdk env w).world
          = [Call.app_sched_execute, Call.NRF_LOG_PROCESS,
             Call.bsp_board_led_off (NON_CONNECTABLE_ADV_LED_PIN sdk),
             Call.sd_app_evt_wait,
             Call.bsp_board_led_on (NON_CONNECTABLE_ADV_LED_PIN sdk)])
    ∧ (env.log_process = false → env.wait_err_code ≠ sdk.NRF_SUCCESS →
        issued w (main_loop_body sdk env w).world
          = [Call.app_sched_execute, Call.NRF_LOG_PROCESS,
             Call.bsp_board_led_off (NON_CONNECTABLE_ADV_LED_PIN sdk),
             Call.sd_app_evt_wait]
        ∧ (main_loop_body sdk env w).isReturned = false)
    ∧ (env.log_process = true →
        issued w (main_loop_body sdk env w).world
          = [Call.app_sched_execute, Call.NRF_LOG_PROCESS]
        ∧ (issued w (main_loop_body sdk env w).world).filter isIndicatorCommand = []
        ∧ (main_loop_body sdk env w).isReturned = true)
    ∧ (Call.sd_app_evt_wait ∈ issued w (main_loop_body sdk env w).world
        ↔ env.log_process = false)
    ∧ drainedBeforeEveryWait false (issued w (main_loop sdk envs w).world) = true := by
  refine ⟨?_, ?_, ?_, ?_, ?_⟩
  · intro h1 h2
    simp [issued, main_loop_body_calls, h1, h2]
  · intro h1 h2
    refine ⟨by simp [issued, main_loop_body_calls, h1, h2], ?_⟩
    simp [main_loop_body, power_manage, APP_ERROR_CHECK, Outcome.andThen, Outcome.isReturned,
      h1, h2]
  · intro h1
    refine ⟨by simp [issued, main_loop_body_calls, h1], ?_, ?_⟩
    · simp [issued, main_loop_body_calls, h1, isIndicatorCommand]
    · simp [main_loop_body, Outcome.isReturned, h1]
  · obtain ⟨lp, ec⟩ := env
    by_cases h2 : ec = sdk.NRF_SUCCESS <;>
      cases lp <;> simp [issued, main_loop_body_calls, h2]
  · obtain ⟨cs, hcs, hd⟩ := main_loop_calls sdk envs w
    simp [issued, hcs, hd]

/-- C8, instance: a pass in which the log has nothing buffered and the wait
succeeds, one in which the wait fails, one in which the log has output, and
three passes in a row. -/
theorem main_loop_drains_before_wait_witness :
    issued quiet (main_loop_body board ⟨false, 0⟩ quiet).world
        = [Call.app_sched_execute, Call.NRF_LOG_PROCESS,
           Call.bsp_board_led_off (NON_CONNECTABLE_ADV_LED_PIN board),
           Call.sd_app_evt_wait,
           Call.bsp_board_led_on (NON_CONNECTABLE_ADV_LED_PIN board)]
    ∧ (main_loop_body board ⟨false, 1⟩ quiet).isReturned = false
    ∧ issued quiet (main_loop_body board ⟨true, 0⟩ quiet).world
        = [Call.app_sched_execute, Call.NRF_LOG_PROCESS]
    ∧ drainedBeforeEveryWait false
        (issued quiet
          (main_loop board [⟨false, 0⟩, ⟨true, 0⟩, ⟨false, 0⟩] quiet).world) = true :=
  ⟨(main_loop_drains_before_wait board ⟨false, 0⟩ [] quiet).1 rfl rfl,
   ((main_loop_drains_before_wait board ⟨false, 1⟩ [] quiet).2.1 rfl (by decide)).2,
   ((main_loop_drains_before_wait board ⟨true, 0⟩ [] quiet).2.2.1 rfl).1,
   (main_loop_drains_before_wait board ⟨false, 0⟩
      [⟨false, 0⟩, ⟨true, 0⟩, ⟨false, 0⟩] quiet).2.2.2.2⟩


/-! ## Replay of event sequences against the mode of the specification -/

/-- One step keeps: LED 0 on only in `ConnectableAdvertising`. -/
theorem handle_keeps_led_implies_mode (sdk : Sdk) (i : Input) (m : BeaconMode) (w : World)
    (h : w.leds sdk.BSP_BOARD_LED_0 = true → m = .ConnectableAdvertising) :
    (handle sdk i w).world.leds sdk.BSP_BOARD_LED_0 = true →
      spec_transition m i = .ConnectableAdvertising := by
  cases i with
  | stack e err_code =>
    obtain ⟨id, c⟩ := e
    by_cases h1 : err_code = sdk.NRF_SUCCESS <;>
      by_cases h2 : sdk.NRF_SD_BLE_API_VERSION = 3 <;>
      cases id <;> cases m <;>
      simp_all [handle, on_ble_evt, APP_ERROR_CHECK, call, bsp_board_led_on,
        bsp_board_led_off, Outcome.world, spec_transition, CONNECTED_LED_PIN,
        CONNECTABLE_ADV_LED_PIN]
  | notification evt =>
    cases evt <;> cases m <;>
      simp_all [handle, on_es_evt, bsp_board_led_on, Outcome.world, spec_transition,
        CONNECTABLE_ADV_LED_PIN]
  | button pin_no button_action =>
    have hl : (button_evt_handler sdk pin_no button_action w).leds = w.leds := by
      unfold button_evt_handler
      split <;> rfl
    cases m <;> simp_all [handle, Outcome.world, spec_transition]

/-- One step other than a `ConnectionLost` in `ConnectableAdvertising` keeps:
LED 0 on in `ConnectableAdvertising`. -/
theorem handle_keeps_mode_implies_led (sdk : Sdk) (i : Input) (m : BeaconMode) (w : World)
    (hno : noLossWhileConnectable m [i] = true)
    (h : m = .ConnectableAdvertising → w.leds sdk.BSP_BOARD_LED_0 = true) :
    spec_transition m i = .ConnectableAdvertising →
      (handle sdk i w).world.leds sdk.BSP_BOARD_LED_0 = true := by
  cases i with
  | stack e err_code =>
    obtain ⟨id, c⟩ := e
    by_cases h1 : err_code = sdk.NRF_SUCCESS <;>
      by_cases h2 : sdk.NRF_SD_BLE_API_VERSION = 3 <;>
      cases id <;> cases m <;>
      simp_all [handle, on_ble_evt, APP_ERROR_CHECK, call, bsp_board_led_on,
        bsp_board_led_off, Outcome.world, spec_transition, CONNECTED_LED_PIN,
        CONNECTABLE_ADV_LED_PIN, noLossWhileConnectable]
  | notification evt =>
    cases evt <;> cases m <;>
      simp_all [handle, on_es_evt, bsp_board_led_on, Outcome.world, spec_transition,
        CONNECTABLE_ADV_LED_PIN]
  | button pin_no button_action =>
    have hl : (button_evt_handler sdk pin_no button_action w).leds = w.leds := by
      unfold button_evt_handler
      split <;> rfl
    cases m <;> simp_all [handle, Outcome.world, spec_transition]

/-- Replay from any state keeps: LED 0 on only in `ConnectableAdvertising`. -/
theorem replay_led_implies_mode (sdk : Sdk) (evs : List Input) :
    ∀ m w, (w.leds sdk.BSP_BOARD_LED_0 = true → m = .ConnectableAdvertising) →
      ((replay sdk evs (m, w)).2.leds sdk.BSP_BOARD_LED_0 = true →
        (replay sdk evs (m, w)).1 = .ConnectableAdvertising) := by
  induction evs with
  | nil => intro m w h; simpa [replay] using h
  | cons i is ih =>
    intro m w h
    have hstep := handle_keeps_led_implies_mode sdk i m w h
    cases hrun : handle sdk i w with
    | returned w1 =>
      rw [hrun] at hstep
      simp only [replay, hrun]
      exact ih _ _ hstep
    | fatal c w1 =>
      rw [hrun] at hstep
      simp only [replay, hrun]
      exact hstep

/-- The condition on a sequence splits into its first input and the rest. -/
theorem noLossWhileConnectable_cons (m : BeaconMode) (i : Input) (is : List Input)
    (h : noLossWhileConnectable m (i :: is) = true) :
    noLossWhileConnectable m [i] = true
      ∧ noLossWhileConnectable (spec_transition m i) is = true := by
  simp only [noLossWhileConnectable, Bool.and_eq_true, Bool.and_true] at h ⊢
  exact h

/-- Replay of a sequence without `ConnectionLost` in `ConnectableAdvertising`
keeps: LED 0 on in `ConnectableAdvertising`. -/
theorem replay_mode_implies_led (sdk : Sdk) (evs : List Input) :
    ∀ m w, noLossWhileConnectable m evs = true →
      (m = .ConnectableAdvertising → w.leds sdk.BSP_BOARD_LED_0 = true) →
      ((replay sdk evs (m, w)).1 = .ConnectableAdvertising →
        (replay sdk evs (m, w)).2.leds sdk.BSP_BOARD_LED_0 = true) := by
  induction evs with
  | nil => intro m w _ h; simpa [replay] using h
  | cons i is ih =>
    intro m w hno h
    obtain ⟨hno1, hno2⟩ := noLossWhileConnectable_cons m i is hno
    have hstep := handle_keeps_mode_implies_led sdk i m w hno1 h
    cases hrun : handle sdk i w with
    | returned w1 =>
      rw [hrun] at hstep
      simp only [replay, hrun]
      exact ih _ _ hno2 hstep
    | fatal c w1 =>
      rw [hrun] at hstep
      simp only [replay, hrun]
      exact hstep

/-- C2, counterexample: replaying, from the initial state, the single
notification `NRF_BLE_ES_EVT_CONNECTABLE_ADV_STARTED` gives the mode
`ConnectableAdvertising` with the connected indicator on, so it is false that
the connected indicator is on if and only if the mode is `Connected` while the
advertising indicator is on if and only if the mode is
`ConnectableAdvertising`. -/
theorem replay_breaks_indicator_invariant :
    ¬ ((connected_indicator board
          (replay board [.notification .NRF_BLE_ES_EVT_CONNECTABLE_ADV_STARTED] initial).2
            = true
          ↔ (replay board [.notification .NRF_BLE_ES_EVT_CONNECTABLE_ADV_STARTED] initial).1
            = .Connected)
      ∧ (advertising_indicator board
          (replay board [.notification .NRF_BLE_ES_EVT_CONNECTABLE_ADV_STARTED] initial).2
            = true
          ↔ (replay board [.notification .NRF_BLE_ES_EVT_CONNECTABLE_ADV_STARTED] initial).1
            = .ConnectableAdvertising)) := by
  decide

/-- C2, amended: for every sequence of stack events, notifications and button
events replayed from the initial state through `on_ble_evt`, `on_es_evt` and
`button_evt_handler`, with the mode following the transition table of the
specification, after every step (after the first `k` inputs, for every `k`)
the advertising indicator is on only if the mode is `ConnectableAdvertising`;
and when no `ConnectionLost` event has been handled while the mode was
`ConnectableAdvertising`, the advertising indicator is on if and only if the
mode is `ConnectableAdvertising`. -/
theorem replay_advertising_indicator (sdk : Sdk) (evs : List Input) (k : Nat) :
    (advertising_indicator sdk (replay sdk (evs.take k) initial).2 = true →
        (replay sdk (evs.take k) initial).1 = .ConnectableAdvertising)
    ∧ (noLossWhileConnectable initial.1 (evs.take k) = true →
        (advertising_indicator sdk (replay sdk (evs.take k) initial).2 = true
          ↔ (replay sdk (evs.take k) initial).1 = .ConnectableAdvertising)) := by
  have h1 : advertising_indicator sdk (replay sdk (evs.take k) initial).2 = true →
      (replay sdk (evs.take k) initial).1 = .ConnectableAdvertising :=
    replay_led_implies_mode sdk (evs.take k) _ _ (by simp [initial])
  refine ⟨h1, fun hno => ⟨h1, ?_⟩⟩
  exact replay_mode_implies_led sdk (evs.take k) _ _ hno (by simp [initial])

/-- C2, amended, instance: of the sequence button press, connectable
advertising started, connection established, connection lost, the state after
two steps has the mode `ConnectableAdvertising` (indicator on), and after all
four steps, no `ConnectionLost` having arrived in `ConnectableAdvertising`,
indicator and mode agree. -/
theorem replay_advertising_indicator_witness :
    (replay board
        (List.take 2
          [.button 13 1, .notification .NRF_BLE_ES_EVT_CONNECTABLE_ADV_STARTED,
           .stack ⟨.BLE_GAP_EVT_CONNECTED, 0⟩ 0,
           .stack ⟨.BLE_GAP_EVT_DISCONNECTED, 0⟩ 0]) initial).1 = .ConnectableAdvertising
    ∧ (advertising_indicator board
          (replay board
            (List.take 4
              [.button 13 1, .notification .NRF_BLE_ES_EVT_CONNECTABLE_ADV_STARTED,
               .stack ⟨.BLE_GAP_EVT_CONNECTED, 0⟩ 0,
               .stack ⟨.BLE_GAP_EVT_DISCONNECTED, 0⟩ 0]) initial).2 = true
        ↔ (replay board
            (List.take 4
              [.button 13 1, .notification .NRF_BLE_ES_EVT_CONNECTABLE_ADV_STARTED,
               .stack ⟨.BLE_GAP_EVT_CONNECTED, 0⟩ 0,
               .stack ⟨.BLE_GAP_EVT_DISCONNECTED, 0⟩ 0]) initial).1
            = .ConnectableAdvertising) :=
  ⟨(replay_advertising_indicator board
      [.button 13 1, .notification .NRF_BLE_ES_EVT_CONNECTABLE_ADV_STARTED,
       .stack ⟨.BLE_GAP_EVT_CONNECTED, 0⟩ 0,
       .stack ⟨.BLE_GAP_EVT_DISCONNECTED, 0⟩ 0] 2).1 (by decide),
   (replay_advertising_indicator board
      [.button 13 1, .notification .NRF_BLE_ES_EVT_CONNECTABLE_ADV_STARTED,
       .stack ⟨.BLE_GAP_EVT_CONNECTED, 0⟩ 0,
       .stack ⟨.BLE_GAP_EVT_DISCONNECTED, 0⟩ 0] 4).2 (by decide)⟩

end Eddystone
